import Mathlib

/-!
# Verification of the effectkit resilient-execution core

Shallow embedding of the resilience combinators used by
`src/lib/effects/api.service.ts`: retry with exponential backoff and
jitter, timeout guard, fallback, scoped resource acquisition/release,
and bounded-concurrency execution, together with the repository's
concrete policies, mock data and utility pipelines.

The repository is written against the `effect` TypeScript library; the
combinators themselves (`Effect.retry`, `Schedule`, `Effect.timeout`,
`Effect.orElse`, `Effect.acquireUseRelease`, `Effect.all`) live in that
library, so they are embedded here following their documented semantics,
while everything the repository itself defines (policies, error
constructors, mock stores, service functions) is translated directly
from the source.
-/

namespace EffectKit

/-- The `Result` / exit value of running an effect: success with a value
or failure with a typed error (`Effect.Effect<A, E>` collapsed to its
outcome). -/
inductive Result (α ε : Type) where
  | ok (a : α)
  | err (e : ε)
deriving DecidableEq

/-- Errors produced by the `@effect/platform` collaborators inside
`makeRequest`, before `Effect.catchTags` maps them: the timeout guard's
`TimeoutException` and the tagged client/decode failures, each carrying
its message. -/
inductive PlatformError where
  | timeoutException
  | httpClientError (message : String)
  | requestError (message : String)
  | parseError (message : String)
deriving DecidableEq

/-- The error channel of the full `ApiService` (`api.service.ts` lines
24-32): `ApiError` with message, optional status and optional cause, or
`NetworkError` with a message. The cause field holds the underlying
platform error when `makeRequest` embeds one. -/
inductive FullError where
  | apiError (message : String) (status : Option Nat) (cause : Option PlatformError)
  | networkError (message : String)
deriving DecidableEq

/-- The error channel of the mock `SimpleApiService` (second module of
`api.service.ts`): `ApiError` with message and optional status, or
`NetworkError` with a message. -/
inductive SimpleError where
  | apiError (message : String) (status : Option Nat)
  | networkError (message : String)
deriving DecidableEq

/-! ## Retry (`Effect.retry` with the repository's schedules)

The repository's two retry policies are
`Schedule.exponential(100ms).intersect(Schedule.recurs(3)).jittered`
(line 48, used inside `makeRequest`) and
`Schedule.exponential(100ms).intersect(Schedule.recurs(3))`
(line 399, `fetchPostsWithRetry`).  `Schedule.exponential` recurs
forever, `Schedule.recurs(n)` recurs `n` times, `intersect` continues
only while both continue, and `jittered` only rescales delays.  Hence
both policies allow exactly `n = 3` retries after the initial attempt,
independent of the error value. -/

/-- Models `Effect.retry(op, schedule)` for the repository's schedules,
whose continue-decision is exactly "`remaining` retries left".  `op k`
is the outcome of the `k`-th invocation of the re-invocable operation
(0-indexed); the result pairs the final outcome with the total number of
invocations performed. -/
def retryRecurs {α ε : Type} (op : Nat → Result α ε) (k remaining : Nat) :
    Result α ε × Nat :=
  match op k with
  | .ok a => (.ok a, 1)
  | .err e =>
    match remaining with
    | 0 => (.err e, 1)
    | r + 1 =>
      let p := retryRecurs op (k + 1) r
      (p.1, p.2 + 1)

/-- `Schedule.exponential`'s continue-decision: recurs forever, for any
attempt index and any error. -/
def exponentialDecision {ε : Type} (_k : Nat) (_e : ε) : Bool := true

/-- `Schedule.recurs(n)`'s continue-decision: allow the `k`-th retry
exactly when `k < n`; the error value is ignored. -/
def recursDecision {ε : Type} (n : Nat) (k : Nat) (_e : ε) : Bool :=
  decide (k < n)

/-- `Schedule.intersect`: continue only when both schedules continue. -/
def intersectDecision {ε : Type} (d1 d2 : Nat → ε → Bool) (k : Nat) (e : ε) : Bool :=
  d1 k e && d2 k e

/-- `Schedule.jittered` leaves the continue-decision of the underlying
schedule unchanged (it only rescales delays). -/
def jitteredDecision {ε : Type} (d : Nat → ε → Bool) : Nat → ε → Bool := d

/-- The continue-decision of the repository's `retryPolicy`
(`api.service.ts` line 48):
`Schedule.exponential(100ms) ⊓ Schedule.recurs(3)`, jittered.  As a
function of the retry index and the error it reduces to `k < 3`. -/
def retryPolicyDecision {ε : Type} (k : Nat) (e : ε) : Bool :=
  jitteredDecision (intersectDecision exponentialDecision (recursDecision 3)) k e

/-! ## Delays (`Schedule` delay sequences) -/

/-- `Schedule.exponential(base)`: the delay before the `k`-th retry is
`base * 2 ^ k` (milliseconds, modelled in ℚ). -/
def exponentialDelay (base : ℚ) (k : Nat) : ℚ := base * 2 ^ k

/-- `Schedule.recurs` contributes no delay of its own. -/
def recursDelay (_k : Nat) : ℚ := 0

/-- `Schedule.intersect` waits for both schedules, so its delay is the
maximum of the two component delays. -/
def intersectDelay (d1 d2 : Nat → ℚ) (k : Nat) : ℚ := max (d1 k) (d2 k)

/-- `Schedule.jittered` with the library's default factors: the delay is
multiplied by `min + random * (max - min)` with `min = 0.8`,
`max = 1.2` and `random` sampled uniformly from `[0, 1)`. -/
def jitteredFactor (random : ℚ) : ℚ := 4 / 5 + random * (6 / 5 - 4 / 5)

/-- Delay sequence of a jittered schedule, given the sampled `random`
value for each retry index. -/
def jitteredDelay (d : Nat → ℚ) (random : Nat → ℚ) (k : Nat) : ℚ :=
  d k * jitteredFactor (random k)

/-- Delay sequence of the repository's `retryPolicy` (line 48):
`Schedule.exponential(Duration.millis(100))` intersected with
`Schedule.recurs(3)`, then `Schedule.jittered`; `random k` is the
uniform sample used for the `k`-th delay. -/
def retryPolicyDelay (random : Nat → ℚ) (k : Nat) : ℚ :=
  jitteredDelay (intersectDelay (exponentialDelay 100) recursDelay) random k

/-! ## Timeout guard (`Effect.timeout`) -/

/-- Models `Effect.timeout(duration)` applied to an operation whose
execution takes `time` (same unit as `duration`, milliseconds) and
would produce `res`: if the operation completes within the duration its
result passes through unchanged, otherwise the guard fails with the
timeout error (`TimeoutException`), regardless of what the underlying
operation would have produced. -/
def effectTimeout {α ε : Type} (timeoutErr : ε) (duration time : Nat)
    (res : Result α ε) : Result α ε :=
  if time ≤ duration then res else .err timeoutErr

/-- `REQUEST_TIMEOUT = Duration.seconds(10)` (`api.service.ts` line 54),
in milliseconds. -/
def requestTimeout : Nat := 10000

/-- The `Effect.catchTags` mapping at the end of `makeRequest`
(`api.service.ts` lines 88-100), translated case by case. -/
def makeRequestCatchTags : PlatformError → FullError
  | .timeoutException => .networkError "Request timed out"
  | .httpClientError m =>
    .apiError ("HTTP error: " ++ m) none (some (.httpClientError m))
  | .requestError m => .networkError ("Network error: " ++ m)
  | .parseError m => .apiError ("Failed to decode response: " ++ m) none none

/-- The response step of `makeRequest` (lines 74-80):
`client.execute(request) |> Effect.timeout(REQUEST_TIMEOUT) |>
Effect.retry(retryPolicy)`.  `times k` and `execRes k` are the duration
and outcome of the `k`-th execution of the request; the pair returned
is the final outcome together with the number of executions. -/
def makeRequestResponse {J : Type} (times : Nat → Nat)
    (execRes : Nat → Result J PlatformError) : Result J PlatformError × Nat :=
  retryRecurs
    (fun k => effectTimeout PlatformError.timeoutException requestTimeout
      (times k) (execRes k)) 0 3

/-- `makeRequest` (lines 57-101): run the guarded, retried response
step, decode the JSON payload, and map the remaining platform errors
with `catchTags`.  `decodeRes` is the outcome of
`Schema.decodeUnknown(schema)` on the received payload. -/
def makeRequestModel {J α : Type} (times : Nat → Nat)
    (execRes : Nat → Result J PlatformError)
    (decodeRes : J → Result α PlatformError) : Result α FullError :=
  match (makeRequestResponse times execRes).1 with
  | .err e => .err (makeRequestCatchTags e)
  | .ok j =>
    match decodeRes j with
    | .err e => .err (makeRequestCatchTags e)
    | .ok a => .ok a

/-- Error channel of `fetchUserDataWithTimeout` after `Effect.timeout`:
the simple service's errors plus `TimeoutException`. -/
inductive SimpleOrTimeout where
  | apiError (message : String) (status : Option Nat)
  | networkError (message : String)
  | timeoutException
deriving DecidableEq

/-- The `onFailure` branch of `fetchUserDataWithTimeout`'s
`Effect.match` (lines 462-468): the surfaced `(type, message)` pair is
`('Timeout', 'Request timed out')` when the error is a
`TimeoutException` and the error's own tag and message otherwise. -/
def fetchUserDataMatchFailure : SimpleOrTimeout → String × String
  | .timeoutException => ("Timeout", "Request timed out")
  | .apiError m _ => ("ApiError", m)
  | .networkError m => ("NetworkError", m)

/-! ## Mock data stores (second module of `api.service.ts`) -/

/-- `Post` record (`PostSchema`). -/
structure Post where
  id : Nat
  title : String
  body : String
  userId : Nat
deriving DecidableEq

/-- `Todo` record (`TodoSchema`). -/
structure Todo where
  id : Nat
  title : String
  completed : Bool
  userId : Nat
deriving DecidableEq

/-- `mockPosts` (`api.service.ts` lines 304-323). -/
def mockPosts : List Post :=
  [ { id := 1,
      title := "Effect-TS: Functional Programming Made Easy",
      body := "Effect-TS provides a powerful toolkit for building robust, type-safe applications with composable effects.",
      userId := 1 },
    { id := 2,
      title := "SvelteKit: The Modern Web Framework",
      body := "SvelteKit offers the best developer experience with its component-based architecture and server-side rendering.",
      userId := 1 },
    { id := 3,
      title := "Combining Effect and SvelteKit",
      body := "Learn how to integrate Effect-TS with SvelteKit for building scalable web applications.",
      userId := 2 } ]

/-- `mockTodos` (`api.service.ts` lines 325-331). -/
def mockTodos : List Todo :=
  [ { id := 1, title := "Learn Effect-TS basics", completed := true, userId := 1 },
    { id := 2, title := "Build a SvelteKit app", completed := true, userId := 1 },
    { id := 3, title := "Integrate Effect with SvelteKit", completed := false, userId := 1 },
    { id := 4, title := "Write comprehensive documentation", completed := false, userId := 2 },
    { id := 5, title := "Create example applications", completed := true, userId := 2 } ]

/-! ## Operations with an evaluation trace (fallback combinator)

To state "the fallback is never evaluated on success" we carry, next to
an operation's outcome, the list of sub-operations that actually ran. -/

/-- An executed operation: the trace of sub-operations that ran,
paired with the outcome. -/
structure Op (α ε : Type) where
  trace : List String
  result : Result α ε
deriving DecidableEq

/-- Models `Effect.orElse(self, that)`: on success the fallback thunk
`that` is not run (its trace does not appear); on failure the fallback
runs and its outcome becomes the final result, the original error being
discarded. -/
def orElse {α ε ε2 : Type} (self : Op α ε) (that : Unit → Op α ε2) : Op α ε2 :=
  match self.result with
  | .ok a => { trace := self.trace, result := .ok a }
  | .err _ =>
    let t := that ()
    { trace := self.trace ++ t.trace, result := t.result }

/-- `simulateNetworkCall(data, failureRate)` (lines 334-345): sleeps,
then fails with `NetworkError('Network request failed')` when the
sampled random number falls under the failure rate, and succeeds with
`data` otherwise.  The random draw is abstracted into the boolean
`netFails`. -/
def simulateNetworkCall {α : Type} (data : α) (netFails : Bool) : Op α SimpleError :=
  if netFails then
    { trace := ["network"], result := .err (.networkError "Network request failed") }
  else
    { trace := ["network"], result := .ok data }

/-- `makeSimpleApiService().getPost(id)` (lines 355-363):
`simulateNetworkCall(mockPosts.find(post => post.id === id))` followed
by `flatMap` into either the found post or the 404 `ApiError`. -/
def getPostSimple (netFails : Bool) (id : Nat) : Op Post SimpleError :=
  let base := simulateNetworkCall (mockPosts.find? (fun p => p.id == id)) netFails
  match base.result with
  | .err e => { trace := base.trace, result := .err e }
  | .ok (some p) => { trace := base.trace, result := .ok p }
  | .ok none =>
    { trace := base.trace,
      result := .err (.apiError ("Post with ID " ++ toString id ++ " not found") (some 404)) }

/-- The fallback post built in `fetchPostWithFallback` (lines 420-425). -/
def fallbackPost (id : Nat) : Post :=
  { id := id, title := "Fallback Post",
    body := "This is a fallback post when the original could not be loaded.",
    userId := 0 }

/-- `fetchPostWithFallback(id)` up to the final `Effect.match`
(lines 416-426): `getPost(id)` composed with
`Effect.orElse(() => Effect.succeed(fallbackPost))`. -/
def fetchPostWithFallback (netFails : Bool) (id : Nat) : Op Post SimpleError :=
  orElse (getPostSimple netFails id)
    (fun _ => { trace := ["fallbackEval"], result := .ok (fallbackPost id) })

/-! ## Error mapping of the mock service (`makeSimpleApiService`) -/

/-- `getPosts`' `Effect.mapError(() => new ApiError(...))` (line 352):
a constant function that ignores the failure it receives. -/
def getPostsMapError (_e : SimpleError) : SimpleError :=
  .apiError "Failed to fetch posts" none

/-- `getTodos`' `Effect.mapError` (line 370). -/
def getTodosMapError (_e : SimpleError) : SimpleError :=
  .apiError "Failed to fetch todos" none

/-- `searchPosts`' `Effect.mapError` (line 382). -/
def searchPostsMapError (_e : SimpleError) : SimpleError :=
  .apiError "Failed to search posts" none

/-- Message carried by a `FullError`. -/
def fullErrorMessage : FullError → String
  | .apiError m _ _ => m
  | .networkError m => m

/-! ## getTodos and JavaScript truthiness -/

/-- Truthiness of the optional `userId: number` parameter in
JavaScript: `undefined` and `0` are falsy, every other number is
truthy. -/
def jsTruthy : Option Nat → Bool
  | none => false
  | some u => u != 0

/-- `makeSimpleApiService().getTodos(userId)` data selection
(lines 365-371): `userId ? mockTodos.filter(todo => todo.userId ===
userId) : mockTodos`. -/
def getTodosSimple (userId : Option Nat) : List Todo :=
  if jsTruthy userId then mockTodos.filter (fun t => t.userId == userId.getD 0)
  else mockTodos

/-- `BASE_URL` (line 45). -/
def baseUrl : String := "https://jsonplaceholder.typicode.com"

/-- URL selection in `makeApiService.getTodos` (lines 118-123):
`userId ? BASE_URL + '/todos?userId=' + userId : BASE_URL + '/todos'`. -/
def getTodosUrl (userId : Option Nat) : String :=
  if jsTruthy userId then baseUrl ++ "/todos?userId=" ++ toString (userId.getD 0)
  else baseUrl ++ "/todos"

/-! ## Resource scope (`Effect.acquireUseRelease`) -/

/-- Termination of the use phase: success, typed failure, or
interruption from an outer guard (cancellation / timeout). -/
inductive UseOutcome (α ε : Type) where
  | ok (a : α)
  | err (e : ε)
  | interrupted
deriving DecidableEq

/-- Phases of an acquire/use/release scope, recorded in execution
order. -/
inductive ScopePhase where
  | acquire
  | body
  | release
deriving DecidableEq

/-- Models `Effect.acquireUseRelease(acquire, use, release)`: if
acquire fails, neither body nor release runs and acquire's failure
propagates; if acquire succeeds the body runs with the handle and the
release runs exactly once afterwards — on success, failure and
interruption alike — and the scope's outcome is the body's outcome,
never the release's.  The returned trace lists the phases that ran, in
order. -/
def acquireUseRelease {ρ α ε : Type} (acq : Result ρ ε)
    (use : ρ → UseOutcome α ε) (rel : ρ → Result Unit ε) :
    List ScopePhase × UseOutcome α ε :=
  match acq with
  | .err e => ([ScopePhase.acquire], .err e)
  | .ok r =>
    let u := use r
    let _ := rel r
    ([ScopePhase.acquire, ScopePhase.body, ScopePhase.release], u)

/-- The processing context acquired in
`processPostsWithResourceManagement` (lines 481-484). -/
structure ProcContext where
  startTime : Nat
  processed : Nat
deriving DecidableEq

/-- Stats computed by the use phase of
`processPostsWithResourceManagement` (lines 489-501). -/
structure PostStats where
  total : Nat
  avgTitleLength : ℚ
  userPostCounts : List (Nat × Nat)
  processingTime : Nat
deriving DecidableEq

/-- One step of the `userPostCounts` reduce: bump the count of a
user's posts in the accumulator record (modelled as an association
list). -/
def bumpCount (acc : List (Nat × Nat)) (u : Nat) : List (Nat × Nat) :=
  match acc.lookup u with
  | some k => acc.map (fun p => if p.1 == u then (u, k + 1) else p)
  | none => acc ++ [(u, 1)]

/-- The use phase of `processPostsWithResourceManagement`
(lines 486-502): fetch the posts and compute the stats; a failure of
`getPosts` propagates.  `now2` is the wall clock at the time the stats
are computed. -/
def processPostsBody (getPostsRes : Result (List Post) SimpleError)
    (now2 : Nat) (ctx : ProcContext) : UseOutcome PostStats SimpleError :=
  match getPostsRes with
  | .err e => .err e
  | .ok ps =>
    .ok { total := ps.length,
          avgTitleLength :=
            (ps.foldl (fun sum p => sum + p.title.length) 0 : ℚ) / (ps.length : ℚ),
          userPostCounts := ps.foldl (fun acc p => bumpCount acc p.userId) [],
          processingTime := now2 - ctx.startTime }

/-- `processPostsWithResourceManagement` (lines 477-508): acquire the
processing context with `Effect.sync` (which cannot fail), run the
stats computation as the use phase, release with a logging
`Effect.sync` (which cannot fail either).  `now1` is the wall clock at
acquisition time. -/
def processPostsRM (getPostsRes : Result (List Post) SimpleError)
    (now1 now2 : Nat) : List ScopePhase × UseOutcome PostStats SimpleError :=
  acquireUseRelease (.ok { startTime := now1, processed := 0 })
    (processPostsBody getPostsRes now2) (fun _ => .ok ())

/-! ## Bounded-concurrency runner (`Effect.all` with a concurrency
ceiling)

Modelled from the spec: the scheduler of `Effect.all(ops, concurrency)`
is library code outside `src/`; spec sections 4.6 and 5 describe it as
a ready queue of pending operations plus a pool of at most
`concurrency` running tasks, where each completing task releases its
ticket, records its result at its own input index, and the next queued
operation is dispatched.  Completion order is unconstrained; we model
it as a nondeterministic choice of which running task finishes at each
step, so every theorem quantified over the choice sequence holds of
every interleaving.  `ops j` being an arbitrary value (in applications
a `Result`) covers collect-all mode; the guarantees about returned
results apply to fail-fast mode whenever it returns results. -/

/-- State of the bounded-concurrency pool: index of the next operation
to dispatch, indices of the currently running tasks (the concurrency
tickets in use), and the per-input-slot results (`none` while the slot
is not yet completed). -/
structure PoolState (α : Type) where
  nextIdx : Nat
  running : List Nat
  results : List (Option α)
deriving DecidableEq

/-- Initial pool state: dispatch the first `min concurrency ops.length`
operations, no results yet. -/
def poolInit {α : Type} (concurrency : Nat) (ops : List α) : PoolState α :=
  { nextIdx := min concurrency ops.length,
    running := List.range (min concurrency ops.length),
    results := List.replicate ops.length none }

/-- One scheduler step: the task at position `choice` of the running
pool completes — unconditionally releasing its ticket, whatever its
result is — its result is written at its own input index, and the next
pending operation (if any) is dispatched.  An out-of-range `choice`
leaves the state unchanged. -/
def poolStep {α : Type} (ops : List α) (s : PoolState α) (choice : Nat) :
    PoolState α :=
  match s.running[choice]? with
  | none => s
  | some j =>
    let running1 := s.running.eraseIdx choice
    let results1 := s.results.set j ops[j]?
    if s.nextIdx < ops.length then
      { nextIdx := s.nextIdx + 1,
        running := running1 ++ [s.nextIdx],
        results := results1 }
    else
      { nextIdx := s.nextIdx, running := running1, results := results1 }

/-- Run the pool under a given sequence of completion choices. -/
def poolRun {α : Type} (ops : List α) (concurrency : Nat)
    (choices : List Nat) : PoolState α :=
  choices.foldl (poolStep ops) (poolInit concurrency ops)

/-- Invariant of the bounded-concurrency pool. -/
structure PoolInv {α : Type} (ops : List α) (c : Nat) (s : PoolState α) : Prop where
  resLen : s.results.length = ops.length
  runLe : s.running.length ≤ c
  nextLe : s.nextIdx ≤ ops.length
  runLt : ∀ j ∈ s.running, j < s.nextIdx
  nodup : s.running.Nodup
  resAgree : ∀ (j : Nat) (v : α), s.results[j]? = some (some v) → ops[j]? = some v
  runNone : ∀ j ∈ s.running, s.results[j]? = some none
  undispNone : ∀ (j : Nat), s.nextIdx ≤ j → j < ops.length → s.results[j]? = some none

/-- The 404 `ApiError` produced by the mock `getPost` for the absent
id 999 (`api.service.ts` line 361): a NotFound-kind error in the
spec's taxonomy. -/
def notFoundError : SimpleError :=
  .apiError "Post with ID 999 not found" (some 404)

/-! ## Helper lemmas about the retry model -/

/-- Running the retry loop on an operation that fails on every
invocation performs exactly `remaining + 1` invocations and surfaces the
last error. -/
theorem retryRecurs_always_err {α ε : Type} (op : Nat → Result α ε)
    (errs : Nat → ε) (h : ∀ j, op j = .err (errs j)) :
    ∀ (n k : Nat), retryRecurs op k n = (.err (errs (k + n)), n + 1) := by
  intro n
  induction n with
  | zero =>
    intro k
    simp [retryRecurs, h k]
  | succ m ih =>
    intro k
    have hk := h k
    have ihk := ih (k + 1)
    simp [retryRecurs, hk, ihk]
    have hadd : k + 1 + m = k + (m + 1) := by omega
    rw [hadd]

/-- If the first invocation succeeds, the retry loop performs exactly
one invocation and passes the success through. -/
theorem retryRecurs_first_ok {α ε : Type} (op : Nat → Result α ε) (a : α)
    (h : op 0 = .ok a) (n : Nat) : retryRecurs op 0 n = (.ok a, 1) := by
  cases n <;> simp [retryRecurs, h]

/-- In a duplicate-free list, the element at a position does not occur
in the list with that position erased. -/
theorem nodup_not_mem_eraseIdx {l : List Nat} {i a : Nat}
    (hn : l.Nodup) (hi : l[i]? = some a) : a ∉ l.eraseIdx i := by
  induction l generalizing i with
  | nil => simp at hi
  | cons x xs ih =>
    cases i with
    | zero =>
      simp at hi
      subst hi
      simpa [List.eraseIdx] using (List.nodup_cons.mp hn).1
    | succ m =>
      simp at hi
      have hxs : xs.Nodup := (List.nodup_cons.mp hn).2
      have hax : a ∈ xs := List.getElem?_mem hi
      have hne : a ≠ x := by
        intro h
        exact (List.nodup_cons.mp hn).1 (h ▸ hax)
      simp only [List.eraseIdx, List.mem_cons]
      rintro (hcase | hcase)
      · exact hne hcase
      · exact ih hxs hi hcase

/-- The pool invariant holds initially. -/
theorem poolInv_init {α : Type} (ops : List α) (c : Nat) :
    PoolInv ops c (poolInit c ops) := by
  refine ⟨?_, ?_, ?_, ?_, ?_, ?_, ?_, ?_⟩
  · simp [poolInit]
  · simp [poolInit]
  · simp [poolInit]
  · intro j hj
    simpa [poolInit, List.mem_range] using hj
  · simpa [poolInit] using List.nodup_range (min c ops.length)
  · intro j v h
    simp only [poolInit, List.getElem?_replicate] at h
    split at h
    · cases h
    · cases h
  · intro j hj
    have hjlt : j < min c ops.length := by
      simpa [poolInit, List.mem_range] using hj
    simp [poolInit, List.getElem?_replicate, Nat.lt_of_lt_of_le hjlt (Nat.min_le_right c ops.length)]
  · intro j _ hj2
    simp [poolInit, List.getElem?_replicate, hj2]

/-- Each scheduler step preserves the pool invariant. -/
theorem poolInv_step {α : Type} (ops : List α) (c : Nat) (s : PoolState α)
    (choice : Nat) (h : PoolInv ops c s) :
    PoolInv ops c (poolStep ops s choice) := by
  unfold poolStep
  cases hc : s.running[choice]? with
  | none => simpa using h
  | some j =>
    have hjmem : j ∈ s.running := List.getElem?_mem hc
    have hjn : j < s.nextIdx := h.runLt j hjmem
    have hjops : j < ops.length := Nat.lt_of_lt_of_le hjn h.nextLe
    have hrle : s.running.length ≤ c := h.runLe
    have hnle : s.nextIdx ≤ ops.length := h.nextLe
    have hchoice : choice < s.running.length := by
      by_contra hge
      rw [List.getElem?_eq_none (Nat.le_of_not_lt hge)] at hc
      cases hc
    have hlen1 : (s.running.eraseIdx choice).length = s.running.length - 1 := by
      simp [List.length_eraseIdx, hchoice]
    have hsub : ∀ x ∈ s.running.eraseIdx choice, x ∈ s.running :=
      fun x hx => List.eraseIdx_subset s.running choice hx
    have hnodup1 : (s.running.eraseIdx choice).Nodup :=
      List.Nodup.eraseIdx choice h.nodup
    have hjnot : j ∉ s.running.eraseIdx choice := nodup_not_mem_eraseIdx h.nodup hc
    have hresj : (s.results.set j ops[j]?)[j]? = some ops[j]? :=
      List.getElem?_set_self (by rw [h.resLen]; exact hjops)
    have hresne : ∀ i, i ≠ j → (s.results.set j ops[j]?)[i]? = s.results[i]? :=
      fun i hij => List.getElem?_set_ne (fun hh => hij hh.symm)
    by_cases hdisp : s.nextIdx < ops.length
    · simp only [hdisp, if_true]
      refine ⟨?_, ?_, ?_, ?_, ?_, ?_, ?_, ?_⟩
      · dsimp only
        simp [h.resLen]
      · dsimp only
        simp only [List.length_append, List.length_singleton, hlen1]
        omega
      · dsimp only
        omega
      · intro x hx
        dsimp only at hx ⊢
        simp only [List.mem_append, List.mem_singleton] at hx
        rcases hx with hx | hx
        · exact Nat.lt_succ_of_lt (h.runLt x (hsub x hx))
        · omega
      · dsimp only
        rw [List.nodup_append]
        refine ⟨hnodup1, List.nodup_singleton _, ?_⟩
        intro x hx hx2
        simp only [List.mem_singleton] at hx2
        subst hx2
        exact absurd (h.runLt _ (hsub _ hx)) (by omega)
      · intro i v hv
        dsimp only at hv
        by_cases hij : i = j
        · subst hij
          rw [hresj] at hv
          exact Option.some.inj hv
        · rw [hresne i hij] at hv
          exact h.resAgree i v hv
      · intro x hx
        dsimp only at hx ⊢
        simp only [List.mem_append, List.mem_singleton] at hx
        rcases hx with hx | hx
        · have hxj : x ≠ j := fun hh => hjnot (hh ▸ hx)
          rw [hresne x hxj]
          exact h.runNone x (hsub x hx)
        · subst hx
          have hxj : s.nextIdx ≠ j := by omega
          rw [hresne s.nextIdx hxj]
          exact h.undispNone s.nextIdx le_rfl hdisp
      · intro i hi1 hi2
        dsimp only at hi1 ⊢
        have hij : i ≠ j := by omega
        rw [hresne i hij]
        exact h.undispNone i (by omega) hi2
    · simp only [hdisp, if_false]
      refine ⟨?_, ?_, ?_, ?_, ?_, ?_, ?_, ?_⟩
      · dsimp only
        simp [h.resLen]
      · dsimp only
        simp only [hlen1]
        omega
      · exact h.nextLe
      · intro x hx
        dsimp only at hx ⊢
        exact h.runLt x (hsub x hx)
      · exact hnodup1
      · intro i v hv
        dsimp only at hv
        by_cases hij : i = j
        · subst hij
          rw [hresj] at hv
          exact Option.some.inj hv
        · rw [hresne i hij] at hv
          exact h.resAgree i v hv
      · intro x hx
        dsimp only at hx ⊢
        have hxj : x ≠ j := fun hh => hjnot (hh ▸ hx)
        rw [hresne x hxj]
        exact h.runNone x (hsub x hx)
      · intro i hi1 hi2
        dsimp only at hi1 ⊢
        have hij : i ≠ j := by omega
        rw [hresne i hij]
        exact h.undispNone i hi1 hi2

/-- The pool invariant holds after any sequence of completion
choices. -/
theorem poolInv_run {α : Type} (ops : List α) (c : Nat) (choices : List Nat) :
    PoolInv ops c (poolRun ops c choices) := by
  unfold poolRun
  generalize hs : poolInit c ops = s0
  have h0 : PoolInv ops c s0 := hs ▸ poolInv_init ops c
  clear hs
  induction choices generalizing s0 with
  | nil => simpa using h0
  | cons ch chs ih =>
    simpa using ih (poolStep ops s0 ch) (poolInv_step ops c s0 ch h0)

/-! ## Claims -/

/-- C1, counterexample: under the code's default policy
(`Schedule.exponential(100ms) ⊓ Schedule.recurs(3)`, the `maxAttempts =
3` case), an always-failing operation is invoked 4 times, not the 3
times the claim states. -/
theorem retry_default_policy_four_invocations :
    (retryRecurs (fun _ => (Result.err (SimpleError.networkError "Network request failed") :
      Result (List Post) SimpleError)) 0 3).2 = 4 ∧
    (retryRecurs (fun _ => (Result.err (SimpleError.networkError "Network request failed") :
      Result (List Post) SimpleError)) 0 3).2 ≠ 3 := by
  refine ⟨rfl, ?_⟩
  decide

/-- C1, amended: `Effect.retry` under
`Schedule.exponential ⊓ Schedule.recurs(n)` invokes an always-failing
operation exactly `n + 1` times (one initial attempt plus `n` retries):
4 times under the code's `Schedule.recurs(3)` policy, and exactly once
— never retried — when `n = 0`. -/
theorem retry_always_failing_runs_n_plus_one {α ε : Type}
    (op : Nat → Result α ε) (errs : Nat → ε)
    (h : ∀ j, op j = .err (errs j)) (n : Nat) :
    (retryRecurs op 0 n).2 = n + 1 ∧
    (retryRecurs op 0 3).2 = 4 ∧
    (retryRecurs op 0 0).2 = 1 := by
  rw [retryRecurs_always_err op errs h n 0,
    retryRecurs_always_err op errs h 3 0,
    retryRecurs_always_err op errs h 0 0]
  exact ⟨rfl, rfl, rfl⟩

/-- Witness for C1's amended theorem at the operation of
`fetchPostsWithRetry`: `getPosts` failing every time with the mapped
`ApiError('Failed to fetch posts')`, under the code's 3-retry policy. -/
theorem retry_always_failing_runs_n_plus_one_witness :
    (retryRecurs (fun _ => (Result.err (SimpleError.apiError "Failed to fetch posts" none) :
      Result (List Post) SimpleError)) 0 3).2 = 3 + 1 ∧
    (retryRecurs (fun _ => (Result.err (SimpleError.apiError "Failed to fetch posts" none) :
      Result (List Post) SimpleError)) 0 3).2 = 4 ∧
    (retryRecurs (fun _ => (Result.err (SimpleError.apiError "Failed to fetch posts" none) :
      Result (List Post) SimpleError)) 0 0).2 = 1 :=
  retry_always_failing_runs_n_plus_one _
    (fun _ => SimpleError.apiError "Failed to fetch posts" none) (fun _ => rfl) 3

/-- C2, counterexample: the code's retry policy decision ignores the
error kind — on the 404 NotFound-kind `ApiError` from `getPost` it
decides to retry (`true`, the claim says `false`), and an operation
failing with that error under `Effect.retry(retryPolicy)` is invoked 4
times, i.e. re-invoked, where the claim says it is never re-invoked. -/
theorem retry_policy_retries_notFound :
    retryPolicyDecision 0 notFoundError = true ∧
    (retryRecurs (fun _ => (Result.err notFoundError : Result Post SimpleError)) 0 3).2 = 4 :=
  ⟨rfl, rfl⟩

/-- C2, amended: the code's retry schedule is error-agnostic — its
continue-decision is a function of the attempt index alone (`k < 3`),
identical for every error kind, so a Validation/NotFound/Decode-kind
failure under `Effect.retry(retryPolicy)` is re-invoked exactly like a
retriable one (4 invocations when always failing).  In `makeRequest`,
decode failures escape retry only because the retry wraps just the
transport and timeout step, not the decode step. -/
theorem retry_policy_error_agnostic (e e2 : SimpleError) (k : Nat) :
    retryPolicyDecision k e = retryPolicyDecision k e2 ∧
    retryPolicyDecision k e = decide (k < 3) ∧
    (retryRecurs (fun _ => (Result.err e : Result Post SimpleError)) 0 3).2 = 4 := by
  refine ⟨rfl, rfl, ?_⟩
  rw [retryRecurs_always_err (fun _ => (Result.err e : Result Post SimpleError))
    (fun _ => e) (fun _ => rfl) 3 0]

/-- C3, counterexample: with jitter sample `0.9` the first delay of the
code's policy is `100 * (0.8 + 0.9 * 0.4) = 116 ms`, strictly above the
claimed bound `min(maxDelay, base * 2^0) = 100 ms`. -/
theorem jittered_delay_exceeds_claimed_bound :
    retryPolicyDelay (fun _ => 9 / 10) 0 = 116 ∧
    ¬ retryPolicyDelay (fun _ => 9 / 10) 0 ≤ 100 * 2 ^ 0 := by
  constructor <;>
    norm_num [retryPolicyDelay, jitteredDelay, intersectDelay, exponentialDelay,
      recursDelay, jitteredFactor]

/-- C3, amended: the code's jitter is proportional, not full jitter —
for a uniform sample in `[0, 1)` the `k`-th delay lies in
`[0.8 * (100 * 2^k), 1.2 * (100 * 2^k))`, hence is nonnegative but can
exceed the un-jittered delay `100 * 2^k` by up to 20%; there is no
`maxDelay` cap. -/
theorem retry_policy_delay_jitter_range (random : Nat → ℚ) (k : Nat)
    (h0 : 0 ≤ random k) (h1 : random k < 1) :
    0 ≤ retryPolicyDelay random k ∧
    4 / 5 * (100 * 2 ^ k) ≤ retryPolicyDelay random k ∧
    retryPolicyDelay random k < 6 / 5 * (100 * 2 ^ k) := by
  have hd : (0 : ℚ) < 100 * 2 ^ k := by positivity
  simp only [retryPolicyDelay, jitteredDelay, intersectDelay, exponentialDelay,
    recursDelay, jitteredFactor]
  rw [max_eq_left hd.le]
  refine ⟨?_, ?_, ?_⟩
  · nlinarith
  · nlinarith
  · nlinarith

/-- Witness for C3's amended theorem at `k = 0` with jitter sample
`1/2`. -/
theorem retry_policy_delay_jitter_range_witness :
    0 ≤ retryPolicyDelay (fun _ => 1 / 2) 0 ∧
    4 / 5 * (100 * 2 ^ 0) ≤ retryPolicyDelay (fun _ => 1 / 2) 0 ∧
    retryPolicyDelay (fun _ => 1 / 2) 0 < 6 / 5 * (100 * 2 ^ 0) :=
  retry_policy_delay_jitter_range (fun _ => 1 / 2) 0 (by norm_num) (by norm_num)

/-- C4, counterexample: the timed-out guard result carries no elapsed
duration — two runs whose operations take 10001 ms and 987654 ms
against the 10000 ms deadline produce the *identical* error value
`NetworkError('Request timed out')` (a fixed message, no duration
field), so the surfaced error cannot carry the elapsed duration the
claim states. -/
theorem timeout_error_carries_no_elapsed_duration :
    makeRequestModel (fun _ => 10001)
      (fun _ => (Result.ok 0 : Result Nat PlatformError)) (fun j => Result.ok j) =
    makeRequestModel (fun _ => 987654)
      (fun _ => (Result.ok 0 : Result Nat PlatformError)) (fun j => Result.ok j) ∧
    makeRequestModel (fun _ => 10001)
      (fun _ => (Result.ok 0 : Result Nat PlatformError)) (fun j => Result.ok j) =
      Result.err (FullError.networkError "Request timed out") ∧
    (10001 : Nat) ≠ 987654 := by
  refine ⟨rfl, rfl, ?_⟩
  decide

/-- C4, amended: the timeout guard passes a within-deadline result
through unchanged and converts an overrun into the timeout error and
nothing else; in `makeRequest` an operation that never completes within
`REQUEST_TIMEOUT` surfaces (after the retries) as
`NetworkError('Request timed out')` — a fixed message with no
elapsed-duration payload — and `fetchUserDataWithTimeout` surfaces a
`TimeoutException` as the pair `('Timeout', 'Request timed out')`. -/
theorem timeout_guard_behavior {J α : Type} (times : Nat → Nat)
    (execRes : Nat → Result J PlatformError)
    (decodeRes : J → Result α PlatformError)
    (duration time : Nat) (res : Result α PlatformError) :
    (time ≤ duration →
      effectTimeout PlatformError.timeoutException duration time res = res) ∧
    (duration < time →
      effectTimeout PlatformError.timeoutException duration time res =
        Result.err PlatformError.timeoutException) ∧
    ((∀ j, requestTimeout < times j) →
      makeRequestModel times execRes decodeRes =
        Result.err (FullError.networkError "Request timed out")) ∧
    (∀ (j : J) (a : α), times 0 ≤ requestTimeout → execRes 0 = .ok j →
      decodeRes j = .ok a → makeRequestModel times execRes decodeRes = .ok a) ∧
    fetchUserDataMatchFailure .timeoutException = ("Timeout", "Request timed out") := by
  refine ⟨?_, ?_, ?_, ?_, rfl⟩
  · intro h
    simp [effectTimeout, h]
  · intro h
    simp only [effectTimeout]
    rw [if_neg (by omega)]
  · intro hall
    have hop : ∀ j, (fun j2 => effectTimeout PlatformError.timeoutException
        requestTimeout (times j2) (execRes j2)) j =
        Result.err PlatformError.timeoutException := by
      intro j
      have := hall j
      simp only [effectTimeout]
      rw [if_neg (by omega)]
    have hresp := retryRecurs_always_err _ (fun _ => PlatformError.timeoutException) hop 3 0
    simp only [makeRequestModel, makeRequestResponse]
    rw [hresp]
    rfl
  · intro j a h1 h2 h3
    have hop0 : (fun j2 => effectTimeout PlatformError.timeoutException
        requestTimeout (times j2) (execRes j2)) 0 = Result.ok j := by
      simp only [effectTimeout]
      rw [if_pos h1, h2]
    have hresp := retryRecurs_first_ok (fun j2 => effectTimeout
      PlatformError.timeoutException requestTimeout (times j2) (execRes j2)) j hop0 3
    simp only [makeRequestModel, makeRequestResponse]
    rw [hresp]
    simp [h3]

/-- Witness for C4's amended theorem: an operation taking 20 s times
out against the 10 s deadline on every retry and surfaces as
`NetworkError('Request timed out')`; an operation taking 9 s passes
through the guard unchanged. -/
theorem timeout_guard_behavior_witness :
    makeRequestModel (fun _ => 20000)
      (fun _ => (Result.ok 5 : Result Nat PlatformError)) (fun j => Result.ok j) =
      Result.err (FullError.networkError "Request timed out") ∧
    effectTimeout PlatformError.timeoutException 10000 9000
      (Result.ok 5 : Result Nat PlatformError) = Result.ok 5 :=
  ⟨(timeout_guard_behavior (fun _ => 20000)
      (fun _ => (Result.ok 5 : Result Nat PlatformError)) (fun j => Result.ok j)
      10000 9000 (Result.ok 5)).2.2.1 (fun j => by decide),
   (timeout_guard_behavior (fun _ => 20000)
      (fun _ => (Result.ok 5 : Result Nat PlatformError)) (fun j => Result.ok j)
      10000 9000 (Result.ok 5)).1 (by decide)⟩

/-- C5: fallback equations of `Effect.orElse` — on success the value
passes through and the fallback is never evaluated (its trace is
absent); on failure the fallback's outcome becomes the result and the
original error is discarded (the result does not depend on it); and
`fetchPostWithFallback(999)` (absent id) yields the default fallback
post and never the 404 NotFound error, whether or not the simulated
network call fails. -/
theorem fallback_combinator_equations {α ε ε2 : Type} (x : α) (e e2 : ε)
    (tr : List String) (fb : Unit → Op α ε2) :
    orElse ({ trace := tr, result := .ok x } : Op α ε) fb =
      { trace := tr, result := .ok x } ∧
    (orElse { trace := tr, result := .err e } fb).result = (fb ()).result ∧
    orElse { trace := tr, result := .err e } fb =
      orElse { trace := tr, result := .err e2 } fb ∧
    (∀ netFails, (fetchPostWithFallback netFails 999).result =
      .ok (fallbackPost 999)) ∧
    (∀ netFails, (fetchPostWithFallback netFails 999).result ≠
      .err notFoundError) := by
  refine ⟨rfl, rfl, rfl, ?_, ?_⟩
  · intro netFails
    cases netFails <;> rfl
  · intro netFails
    cases netFails <;> decide

/-- C6: resource-scope lifecycle of `Effect.acquireUseRelease` — a
failing acquire runs neither body nor release and propagates its error;
a successful acquire runs acquire, body, release in that order with
release exactly once, whatever the body's outcome (success, failure or
interruption, since `use` is arbitrary); the scope's outcome is the
body's outcome and is independent of the release function; and in
`processPostsWithResourceManagement` (whose `Effect.sync` acquire
cannot fail) release runs exactly once whether `getPosts` succeeds or
fails. -/
theorem resource_scope_lifecycle {ρ α ε : Type} (e : ε) (r : ρ)
    (use : ρ → UseOutcome α ε) (rel rel2 : ρ → Result Unit ε) :
    acquireUseRelease (Result.err e : Result ρ ε) use rel =
      ([ScopePhase.acquire], UseOutcome.err e) ∧
    (acquireUseRelease (Result.ok r) use rel).1 =
      [ScopePhase.acquire, ScopePhase.body, ScopePhase.release] ∧
    (acquireUseRelease (Result.ok r) use rel).1.count ScopePhase.release = 1 ∧
    (acquireUseRelease (Result.err e : Result ρ ε) use rel).1.count ScopePhase.release = 0 ∧
    (acquireUseRelease (Result.ok r) use rel).2 = use r ∧
    acquireUseRelease (Result.ok r) use rel =
      acquireUseRelease (Result.ok r) use rel2 ∧
    (∀ getPostsRes now1 now2,
      ((processPostsRM getPostsRes now1 now2).1.count ScopePhase.release = 1) ∧
      (processPostsRM getPostsRes now1 now2).2 =
        processPostsBody getPostsRes now2 { startTime := now1, processed := 0 }) := by
  refine ⟨rfl, rfl, rfl, rfl, rfl, rfl, ?_⟩
  intro getPostsRes now1 now2
  exact ⟨rfl, rfl⟩

/-- C7, counterexample: the mock service's
`mapError(() => new ApiError({message: 'Failed to fetch posts'}))` is a
constant function — two distinct underlying `NetworkError` messages are
both replaced by the same fixed `ApiError`, so the original failure's
message is dropped, contradicting the claim that no original message is
silently dropped. -/
theorem mock_mapError_drops_original_message :
    getPostsMapError (.networkError "Network request failed") =
      .apiError "Failed to fetch posts" none ∧
    getPostsMapError (.networkError "a completely different failure") =
      .apiError "Failed to fetch posts" none ∧
    "Network request failed" ≠ "a completely different failure" := by
  refine ⟨rfl, rfl, ?_⟩
  decide

/-- C7, amended: `makeRequest`'s `catchTags` preserves the original
message as context for `HttpClientError`, `RequestError` and
`ParseError` (it is embedded in the produced message), but a
`TimeoutException` is replaced by the fixed message
`'Request timed out'`, and the mock service's `getPosts`/`getTodos`/
`searchPosts` replace the underlying failure wholesale with fixed
`ApiError` messages, dropping the original message. -/
theorem error_classification_message_handling (m : String) (e e2 : SimpleError) :
    fullErrorMessage (makeRequestCatchTags (.httpClientError m)) = "HTTP error: " ++ m ∧
    fullErrorMessage (makeRequestCatchTags (.requestError m)) = "Network error: " ++ m ∧
    fullErrorMessage (makeRequestCatchTags (.parseError m)) =
      "Failed to decode response: " ++ m ∧
    makeRequestCatchTags .timeoutException = .networkError "Request timed out" ∧
    getPostsMapError e = getPostsMapError e2 ∧
    getPostsMapError e = .apiError "Failed to fetch posts" none ∧
    getTodosMapError e = .apiError "Failed to fetch todos" none ∧
    searchPostsMapError e = .apiError "Failed to search posts" none :=
  ⟨rfl, rfl, rfl, rfl, rfl, rfl, rfl, rfl⟩

/-- C8: order preservation under bounded concurrency — whenever a run
of the pool completes all operations (every result slot filled), the
result list equals the input operations in input order, regardless of
the completion order chosen by the scheduler. -/
theorem poolRun_preserves_input_order {α : Type} (ops : List α) (c : Nat)
    (choices : List Nat)
    (h : (poolRun ops c choices).results.all Option.isSome = true) :
    (poolRun ops c choices).results = ops.map some := by
  have inv := poolInv_run ops c choices
  apply List.ext_getElem?
  intro n
  by_cases hn : n < ops.length
  · have hn2 : n < (poolRun ops c choices).results.length := by
      rw [inv.resLen]
      exact hn
    obtain ⟨o, ho⟩ : ∃ o, (poolRun ops c choices).results[n]? = some o :=
      ⟨_, List.getElem?_eq_getElem hn2⟩
    have hmem : o ∈ (poolRun ops c choices).results := List.getElem?_mem ho
    have hsome : o.isSome = true := List.all_eq_true.mp h o hmem
    obtain ⟨v, hv⟩ := Option.isSome_iff_exists.mp hsome
    subst hv
    have hagree := inv.resAgree n v ho
    rw [ho, List.getElem?_map, hagree]
    rfl
  · rw [List.getElem?_eq_none (by rw [inv.resLen]; omega),
      List.getElem?_eq_none (by rw [List.length_map]; omega)]

/-- Witness for C8 at the spec's scenario: 5 operations, concurrency 2,
a completion schedule finishing them in the order 1, 0, 3, 4, 2 — the
returned results are nevertheless in input order. -/
theorem poolRun_preserves_input_order_witness :
    (poolRun [10, 20, 30, 40, 50] 2 [1, 0, 1, 1, 0]).results =
      [10, 20, 30, 40, 50].map some :=
  poolRun_preserves_input_order [10, 20, 30, 40, 50] 2 [1, 0, 1, 1, 0] (by decide)

/-- C9: concurrency-ceiling invariant — after any sequence of scheduler
steps (hence at every point of every execution) the number of
concurrency tickets in use is at most the ceiling, no ticket is
double-granted (the running set is duplicate-free), and no ticket leaks:
once every operation has completed — whatever each result was, success
or failure — the running set is empty. -/
theorem poolRun_concurrency_ceiling {α : Type} (ops : List α) (c : Nat)
    (choices : List Nat) :
    (poolRun ops c choices).running.length ≤ c ∧
    (poolRun ops c choices).running.Nodup ∧
    ((poolRun ops c choices).results.all Option.isSome = true →
      (poolRun ops c choices).running = []) := by
  have inv := poolInv_run ops c choices
  refine ⟨inv.runLe, inv.nodup, ?_⟩
  intro hall
  rw [List.eq_nil_iff_forall_not_mem]
  intro j hj
  have hnone := inv.runNone j hj
  have hmem : (none : Option α) ∈ (poolRun ops c choices).results :=
    List.getElem?_mem hnone
  have := List.all_eq_true.mp hall none hmem
  simp at this

/-- Witness for C9: 5 operations under ceiling 2 with a completing
schedule — at the end at most 2 tickets were ever in use, the running
set is duplicate-free, and after all 5 completions no ticket is left
held. -/
theorem poolRun_concurrency_ceiling_witness :
    (poolRun [10, 20, 30, 40, 50] 2 [0, 0, 0, 0, 0]).running.length ≤ 2 ∧
    (poolRun [10, 20, 30, 40, 50] 2 [0, 0, 0, 0, 0]).running = [] :=
  ⟨(poolRun_concurrency_ceiling [10, 20, 30, 40, 50] 2 [0, 0, 0, 0, 0]).1,
   (poolRun_concurrency_ceiling [10, 20, 30, 40, 50] 2 [0, 0, 0, 0, 0]).2.2 (by decide)⟩

/-- C10: JavaScript truthiness in `getTodos` — `userId = 0` is falsy,
so `getTodos(0)` returns the full mock todo list (and the unfiltered
URL in the HTTP service), not the empty list of todos with `userId = 0`;
any nonzero `userId` filters exactly the todos with that user id; an
omitted `userId` returns all todos. -/
theorem getTodos_zero_returns_all (u : Nat) (h : u ≠ 0) :
    getTodosSimple (some 0) = mockTodos ∧
    mockTodos.filter (fun t => t.userId == 0) = [] ∧
    getTodosSimple (some u) = mockTodos.filter (fun t => t.userId == u) ∧
    getTodosSimple none = mockTodos ∧
    getTodosUrl (some 0) = "https://jsonplaceholder.typicode.com/todos" ∧
    getTodosUrl none = "https://jsonplaceholder.typicode.com/todos" ∧
    getTodosUrl (some u) =
      "https://jsonplaceholder.typicode.com/todos?userId=" ++ toString u := by
  have ht : jsTruthy (some u) = true := by
    simp [jsTruthy, h]
  refine ⟨rfl, by decide, ?_, rfl, rfl, rfl, ?_⟩
  · simp [getTodosSimple, ht]
  · simp [getTodosUrl, ht, baseUrl]

/-- Witness for C10 at `u = 1`. -/
theorem getTodos_zero_returns_all_witness :
    getTodosSimple (some 0) = mockTodos ∧
    mockTodos.filter (fun t => t.userId == 0) = [] ∧
    getTodosSimple (some 1) = mockTodos.filter (fun t => t.userId == 1) ∧
    getTodosSimple none = mockTodos ∧
    getTodosUrl (some 0) = "https://jsonplaceholder.typicode.com/todos" ∧
    getTodosUrl none = "https://jsonplaceholder.typicode.com/todos" ∧
    getTodosUrl (some 1) =
      "https://jsonplaceholder.typicode.com/todos?userId=" ++ toString 1 :=
  getTodos_zero_returns_all 1 (by decide)

end EffectKit
